import Mathlib

/-
Verification of the two command-line completion utilities
`completions_01.py` (single-shot) and `completions_02.py` (interactive loop).

The Python code is shallowly embedded: strings are Lean `String`s, Python
`str.strip()` / `str.lower()` / slicing are modelled as list operations on
`String.data`, the environment and the credential file are explicit
parameters, and the remote OpenAI client is a parameter describing either an
exception or a returned list of choices.  Floating-point sampling
temperature is carried as an opaque string, since no observable behaviour
depends on its value.
-/

namespace Agentes

/-- Embedding of Python `str.strip()`: drop leading and trailing whitespace
characters (code points). -/
def pyStrip (s : String) : String :=
  ⟨List.rdropWhile Char.isWhitespace (s.data.dropWhile Char.isWhitespace)⟩

/-- Embedding of Python `str.lower()`: lower-case every character. -/
def pyLower (s : String) : String :=
  ⟨s.data.map Char.toLower⟩

/-- Embedding of Python `len(s)` on strings: the number of code points. -/
def pyLen (s : String) : Nat :=
  s.data.length

/-- Embedding of Python `s[:n]` on strings: the first `n` code points. -/
def pySlice (n : Nat) (s : String) : String :=
  ⟨s.data.take n⟩

/-- A JSON value found under a key of the credential file: either a string
or some non-string value (whose precise shape never matters, because
`isinstance(key, str)` rejects it). -/
inductive JsonVal where
  | str (s : String)
  | nonStr
deriving DecidableEq, Repr

/-- Observable states of the credential file `/opt/mykey.json`:
`absent` (`os.path.isfile` is false), `unreadable` (`open`/read raises),
`malformed` (`json.load` raises), `nonObject` (the JSON parses but is not an
object, so `data.get` raises), or a parsed JSON object given by its
key/value entries. -/
inductive FileState where
  | absent
  | unreadable
  | malformed
  | nonObject
  | object (entries : List (String × JsonVal))
deriving DecidableEq, Repr

/-- Association-list lookup, modelling `dict.get` on the parsed object. -/
def lookupEntry : List (String × JsonVal) → String → Option JsonVal
  | [], _ => none
  | (k, v) :: rest, key => if k = key then some v else lookupEntry rest key

/-- Embedding of `get_env`: return the environment variable value if it is
set, non-empty and not whitespace-only (`value if value and value.strip()
else None`); the returned value is NOT stripped. -/
def get_env (value : Option String) : Option String :=
  match value with
  | none => none
  | some v => if v ≠ "" ∧ pyStrip v ≠ "" then some v else none

/-- Embedding of `get_key_from_json`: look up `OPENAI_API_KEY` in the file;
return its stripped value when it is a string that is non-empty and not
whitespace-only; every failure (absent, unreadable, malformed, non-object,
missing key, non-string value, blank value) yields `none` and is swallowed
by the `except Exception: return None` handler. -/
def get_key_from_json : FileState → Option String
  | FileState.absent => none
  | FileState.unreadable => none
  | FileState.malformed => none
  | FileState.nonObject => none
  | FileState.object entries =>
    match lookupEntry entries "OPENAI_API_KEY" with
    | some (JsonVal.str k) =>
      if k ≠ "" ∧ pyStrip k ≠ "" then some (pyStrip k) else none
    | _ => none

/-- Embedding of `get_env("OPENAI_API_KEY") or get_key_from_json("/opt/mykey.json")`:
Python `or` takes the left value when it is truthy (`get_env` never returns
the empty string), otherwise the right one. -/
def resolve_api_key (env : Option String) (file : FileState) : Option String :=
  match get_env env with
  | some v => some v
  | none => get_key_from_json file

/-- Behaviour of the one `client.completions.create` call made for a user
message: the client either raises (any transport/API exception, with its
message) or returns a response holding a list of choices, each with an
optional `text` field (`none` models a missing/null text attribute). -/
inductive ClientResult where
  | raises (msg : String)
  | returns (choices : List (Option String))
deriving DecidableEq, Repr

/-- Embedding of `response.choices[0].text.strip()` guarded by
`except Exception`: `none` when the choices list is empty or the first
choice has no text, otherwise the stripped text. -/
def extract_text : List (Option String) → Option String
  | [] => none
  | none :: _ => none
  | some t :: _ => some (pyStrip t)

/-- Outcome of one whole process run: exit code plus the exact strings
written to standard output and standard error, in order. -/
structure RunResult where
  exitCode : Nat
  stdout : List String
  stderr : List String
deriving DecidableEq, Repr

/-- Usage message of `completions_01.py`. -/
def usage_msg : String :=
  "Usage: completions_01.py \"<message>\"\n- The message is read from $1 (first CLI argument).\n"

/-- Missing-credential message shared by both programs. -/
def missing_key_msg : String :=
  "Error: OPENAI_API_KEY not found. Set it in env or /opt/mykey.json.\n"

/-- Embedding of `main` of `completions_01.py`.  `argv` includes the program
name in position 0, as `sys.argv` does; `client` describes the outcome of
the single `client.completions.create` call. -/
def main01 (argv : List String) (env : Option String) (file : FileState)
    (client : ClientResult) : RunResult :=
  if argv.length < 2 then
    ⟨1, [], [usage_msg]⟩
  else
    match resolve_api_key env file with
    | none => ⟨1, [], [missing_key_msg]⟩
    | some _ =>
      match client with
      | ClientResult.raises msg => ⟨2, [], ["API error: " ++ msg ++ "\n"]⟩
      | ClientResult.returns choices =>
        match extract_text choices with
        | none => ⟨2, [], ["Unexpected response format.\n"]⟩
        | some text => ⟨0, [text ++ "\n"], []⟩

/-- Embedding of `build_prompt` of `completions_02.py`. -/
def build_prompt (system_text transcript user_message : String) : String :=
  let header := if system_text ≠ "" then system_text ++ "\n\n" else ""
  header ++ transcript ++ "User: " ++ user_message ++ "\nAssistant:"

/-- The prompt layout exactly as the specification words it: system
instruction followed by a blank line when non-empty (nothing otherwise),
then the transcript, then the final marker. -/
def prompt_spec (s t m : String) : String :=
  (if s = "" then "" else s ++ "\n\n") ++ t ++ ("User: " ++ m ++ "\n" ++ "Assistant:")

/-- The serialized exchange the interactive loop appends to the transcript
after a successful call (line `transcript += f"User: ...\nAssistant: ...\n"`). -/
def serialize_exchange (user_input assistant_text : String) : String :=
  "User: " ++ user_input ++ "\nAssistant: " ++ assistant_text ++ "\n"

/-- Parsed command-line configuration of `completions_02.py` after
`argparse`: `--model`, `--temperature` (an opaque float rendering),
`--max-tokens`, `--system`, `--verbose`. -/
structure Config where
  model : String
  temperature : String
  maxTokens : Nat
  system : String
  verbose : Bool
deriving DecidableEq, Repr

/-- The `request_payload` dictionary built each iteration: model, prompt,
max tokens, temperature and the two stop markers. -/
structure Request where
  model : String
  prompt : String
  maxTokens : Nat
  temperature : String
  stop : List String
deriving DecidableEq, Repr

/-- Build the `request_payload` of one iteration from the configuration and
the prompt. -/
def mk_request (cfg : Config) (prompt : String) : Request :=
  ⟨cfg.model, prompt, cfg.maxTokens, cfg.temperature, ["\nUser:", "User:"]⟩

/-- The prompt field as serialized in the verbose request log:
`v if len(v) <= 1000 else v[:1000] + "... [truncated]"`. -/
def truncate_prompt (p : String) : String :=
  if pyLen p ≤ 1000 then p else pySlice 1000 p ++ "... [truncated]"

/-- One read from standard input in the interactive loop: either a line, or
end-of-input / interrupt (`EOFError` / `KeyboardInterrupt`).  A line carries
the behaviour the remote client would exhibit if it were called for this
line. -/
inductive Event where
  | eof
  | line (raw : String) (client : ClientResult)
deriving DecidableEq, Repr

/-- Everything observable about one iteration of the interactive loop:
the transcript afterwards, whether the loop terminated, the request
actually sent to the client (`none` when the client was not invoked), the
request as logged in verbose mode (`none` when nothing was logged), and the
strings written to standard output and standard error. -/
structure StepResult where
  transcript : String
  terminated : Bool
  request : Option Request
  loggedRequest : Option Request
  stdout : List String
  stderr : List String
deriving DecidableEq, Repr

/-- Embedding of one iteration of the `while True` loop of
`completions_02.py` (lines 120-169), starting from a given transcript. -/
def loop_step (cfg : Config) (transcript : String) (ev : Event) : StepResult :=
  match ev with
  | Event.eof => ⟨transcript, true, none, none, ["\n"], []⟩
  | Event.line raw client =>
    let user_input := pyStrip raw
    if user_input = "" then
      ⟨transcript, false, none, none, [], []⟩
    else if pyLower user_input = "exit" ∨ pyLower user_input = "quit" then
      ⟨transcript, true, none, none, [], []⟩
    else
      let prompt := build_prompt cfg.system transcript user_input
      let req := mk_request cfg prompt
      let logged := if cfg.verbose then some (mk_request cfg (truncate_prompt prompt)) else none
      match client with
      | ClientResult.raises msg =>
        ⟨transcript, false, some req, logged, [], ["API error: " ++ msg ++ "\n"]⟩
      | ClientResult.returns choices =>
        match extract_text choices with
        | none =>
          ⟨transcript, false, some req, logged, [], ["Unexpected response format.\n"]⟩
        | some assistant_text =>
          ⟨transcript ++ serialize_exchange user_input assistant_text,
           false, some req, logged,
           ["Assistant: " ++ assistant_text ++ "\n"], []⟩

/-- Observable outcome of running the interactive loop to termination:
exit code, final transcript, the requests actually sent to the client in
order, and the output streams. -/
structure LoopOutcome where
  exitCode : Nat
  transcript : String
  requests : List Request
  stdout : List String
  stderr : List String
deriving DecidableEq, Repr

/-- Run the interactive loop over a list of input events.  An exhausted
event list behaves as end-of-input (`input()` raises `EOFError`); the loop
always returns 0 once it terminates. -/
def run_loop (cfg : Config) (transcript : String) : List Event → LoopOutcome
  | [] => ⟨0, transcript, [], ["\n"], []⟩
  | ev :: rest =>
    let r := loop_step cfg transcript ev
    if r.terminated then
      ⟨0, r.transcript, r.request.toList, r.stdout, r.stderr⟩
    else
      let k := run_loop cfg r.transcript rest
      ⟨k.exitCode, k.transcript, r.request.toList ++ k.requests,
       r.stdout ++ k.stdout, r.stderr ++ k.stderr⟩

/-- Greeting printed before the loop starts. -/
def intro_msg : String := "Type \"exit\" to quit.\n"

/-- Embedding of `main` of `completions_02.py`: resolve the credential
(exit 1 with an error on failure), then run the interactive loop over the
given input events and return 0. -/
def main02 (cfg : Config) (env : Option String) (file : FileState)
    (events : List Event) : LoopOutcome :=
  match resolve_api_key env file with
  | none => ⟨1, "", [], [], [missing_key_msg]⟩
  | some _ =>
    let r := run_loop cfg "" events
    ⟨r.exitCode, r.transcript, r.requests, intro_msg :: r.stdout, r.stderr⟩

/-- A concrete configuration (the default flag values of the program). -/
def sampleConfig : Config :=
  ⟨"gpt-3.5-turbo-instruct", "0.7", 256, "You are a helpful assistant.", false⟩

/-- The sample configuration with `--verbose` switched on. -/
def sampleVerboseConfig : Config :=
  { sampleConfig with verbose := true }

/-- A message long enough that the built prompt exceeds 1000 characters. -/
def longMessage : String := String.mk (List.replicate 1100 'a')

/- Helper lemmas about the embedded string primitives. -/

theorem toLower_ws (c : Char) (h : c.isWhitespace) : c.toLower = c := by
  simp [Char.isWhitespace] at h
  rcases h with ((h | h) | h) | h <;> subst h <;> decide

theorem pyStrip_eq_self (s : String)
    (h1 : ∀ c, s.data.head? = some c → ¬ c.isWhitespace)
    (h2 : ∀ c, s.data.getLast? = some c → ¬ c.isWhitespace) :
    pyStrip s = s := by
  unfold pyStrip
  cases s with
  | mk data =>
    cases data with
    | nil => rfl
    | cons a l =>
      have ha : ¬ a.isWhitespace := h1 a rfl
      rw [List.dropWhile_cons_of_neg (by simpa using ha)]
      congr 1
      rw [List.rdropWhile_eq_self_iff]
      intro hl
      exact h2 _ (List.getLast?_eq_getLast _ hl)

theorem pyStrip_of_pyLower (s w : String) (hw : pyLower s = w)
    (hhead : ∀ c, w.data.head? = some c → ¬ c.isWhitespace)
    (hlast : ∀ c, w.data.getLast? = some c → ¬ c.isWhitespace) :
    pyStrip s = s := by
  apply pyStrip_eq_self
  · intro c hc hws
    have hmap : w.data.head? = some c.toLower := by
      rw [← hw]; simp [pyLower, List.head?_map, hc]
    rw [toLower_ws c hws] at hmap
    exact hhead c hmap hws
  · intro c hc hws
    have hmap : w.data.getLast? = some c.toLower := by
      rw [← hw]; simp [pyLower, List.getLast?_map, hc]
    rw [toLower_ws c hws] at hmap
    exact hlast c hmap hws

theorem pyStrip_exit_quit (raw : String)
    (h : pyLower raw = "exit" ∨ pyLower raw = "quit") :
    pyStrip raw = raw := by
  rcases h with h | h
  · exact pyStrip_of_pyLower raw "exit" h
      (fun c hc hws => by
        have hce : c = 'e' := (Option.some.inj hc).symm
        subst hce; exact absurd hws (by decide))
      (fun c hc hws => by
        have hct : c = 't' := (Option.some.inj hc).symm
        subst hct; exact absurd hws (by decide))
  · exact pyStrip_of_pyLower raw "quit" h
      (fun c hc hws => by
        have hcq : c = 'q' := (Option.some.inj hc).symm
        subst hcq; exact absurd hws (by decide))
      (fun c hc hws => by
        have hct : c = 't' := (Option.some.inj hc).symm
        subst hct; exact absurd hws (by decide))

theorem pyStrip_all_ws (s : String) (h : ∀ c ∈ s.data, c.isWhitespace) :
    pyStrip s = "" := by
  unfold pyStrip
  rw [List.dropWhile_eq_nil_iff.mpr (by simpa using h)]
  rfl

theorem pyStrip_empty : pyStrip "" = "" := rfl

/- Claim theorems. -/

/-- C1 (amended): the resolver returns the environment value (unstripped)
whenever it is non-empty after trimming whitespace, without consulting the
file; when the environment value is unset, empty, or whitespace-only, it
falls back to the file, returning the trimmed string found under
`OPENAI_API_KEY` when that trim is non-empty; when resolution fails, both
programs write the missing-credential error to standard error and return
exit code 1. -/
theorem c1_credential_chain (env : Option String) (file : FileState) (cfg : Config)
    (argv : List String) (client : ClientResult) (events : List Event) :
    (∀ v, env = some v → pyStrip v ≠ "" → resolve_api_key env file = some v) ∧
    ((env = none ∨ (∃ v, env = some v ∧ pyStrip v = "")) →
      resolve_api_key env file = get_key_from_json file) ∧
    (∀ entries k, file = FileState.object entries →
      lookupEntry entries "OPENAI_API_KEY" = some (JsonVal.str k) → pyStrip k ≠ "" →
      get_key_from_json file = some (pyStrip k)) ∧
    (resolve_api_key env file = none → 2 ≤ argv.length →
      (main01 argv env file client).exitCode = 1 ∧
      (main01 argv env file client).stderr = [missing_key_msg] ∧
      (main02 cfg env file events).exitCode = 1 ∧
      (main02 cfg env file events).stderr = [missing_key_msg]) := by
  refine ⟨?_, ?_, ?_, ?_⟩
  · intro v hv hstrip
    subst hv
    have hne : v ≠ "" := fun h => hstrip (by rw [h]; rfl)
    simp [resolve_api_key, get_env, hne, hstrip]
  · intro h
    rcases h with h | ⟨v, hv, hstrip⟩
    · subst h; simp [resolve_api_key, get_env]
    · subst hv; simp [resolve_api_key, get_env, hstrip]
  · intro entries k hfile hlookup hstrip
    subst hfile
    have hne : k ≠ "" := fun h => hstrip (by rw [h]; rfl)
    simp [get_key_from_json, hlookup, hne, hstrip]
  · intro hres hlen
    have hnlt : ¬ (argv.length < 2) := by omega
    refine ⟨?_, ?_, ?_, ?_⟩ <;> simp [main01, main02, hres, hnlt]

theorem c1_witness : resolve_api_key (some "K") FileState.absent = some "K" :=
  (c1_credential_chain (some "K") FileState.absent sampleConfig ["p", "m"]
    (ClientResult.raises "e") []).1 "K" rfl (by decide)

/-- C1 counterexample: the environment value `" "` is non-empty, yet the
resolver does not return it (with an absent file, resolution fails
entirely), contradicting the claim that every non-empty environment value
is returned. -/
theorem c1_counterexample :
    (" " : String) ≠ "" ∧ resolve_api_key (some " ") FileState.absent = none := by
  decide


/-- C2: the single-shot program exits 1 when the message argument is
missing or the credential cannot be resolved, 2 when the client raises or
the response lacks the expected choices/text field, and 0 on success,
printing the extracted reply to standard output. -/
theorem c2_single_shot_exit_codes (argv : List String) (env : Option String)
    (file : FileState) (client : ClientResult) :
    (argv.length < 2 → (main01 argv env file client).exitCode = 1) ∧
    (2 ≤ argv.length → resolve_api_key env file = none →
      (main01 argv env file client).exitCode = 1) ∧
    (2 ≤ argv.length → resolve_api_key env file ≠ none →
      (∀ msg, client = ClientResult.raises msg →
        (main01 argv env file client).exitCode = 2) ∧
      (∀ choices, client = ClientResult.returns choices → extract_text choices = none →
        (main01 argv env file client).exitCode = 2) ∧
      (∀ choices reply, client = ClientResult.returns choices →
        extract_text choices = some reply →
        (main01 argv env file client).exitCode = 0 ∧
        (main01 argv env file client).stdout = [reply ++ "\n"])) := by
  refine ⟨?_, ?_, ?_⟩
  · intro h; simp [main01, h]
  · intro hlen hres
    have hnlt : ¬ (argv.length < 2) := by omega
    simp [main01, hnlt, hres]
  · intro hlen hres
    have hnlt : ¬ (argv.length < 2) := by omega
    obtain ⟨k, hk⟩ := Option.ne_none_iff_exists'.mp hres
    refine ⟨?_, ?_, ?_⟩
    · intro msg hc; subst hc; simp [main01, hnlt, hk]
    · intro choices hc hext; subst hc; simp [main01, hnlt, hk, hext]
    · intro choices reply hc hext; subst hc; simp [main01, hnlt, hk, hext]

theorem c2_witness :
    (main01 ["completions_01.py", "Hi"] (some "K") FileState.absent
      (ClientResult.returns [some " ok "])).exitCode = 0 ∧
    (main01 ["completions_01.py", "Hi"] (some "K") FileState.absent
      (ClientResult.returns [some " ok "])).stdout = ["ok" ++ "\n"] :=
  ((c2_single_shot_exit_codes ["completions_01.py", "Hi"] (some "K") FileState.absent
    (ClientResult.returns [some " ok "])).2.2 (by decide) (by decide)).2.2
    [some " ok "] "ok" rfl (by decide)

/-- C3: the prompt builder produces exactly the concatenation the
specification describes (system instruction plus blank line when non-empty,
then transcript, then the `User:`/`Assistant:` marker), and on the concrete
example it yields the specified string. -/
theorem c3_build_prompt_layout (s t m : String) :
    build_prompt s t m = prompt_spec s t m ∧
    build_prompt "You are terse." "" "Hi" =
      "You are terse." ++ "\n\n" ++ "User: Hi" ++ "\n" ++ "Assistant:" := by
  constructor
  · by_cases h : s = "" <;>
      simp [build_prompt, prompt_spec, h, String.append_assoc]
  · rfl

/-- C9: one loop step of transcript growth commutes with prompt
construction: building the prompt over the transcript extended by the
serialized exchange equals extending the previously built prompt with the
assistant reply and a fresh `User:`/`Assistant:` marker; moreover a
successful loop step really extends the transcript by exactly the
serialized exchange. -/
theorem c9_transcript_growth_commutes (s t u a m raw : String) (cfg : Config)
    (choices : List (Option String)) :
    build_prompt s (t ++ serialize_exchange u a) m =
      build_prompt s t u ++ (" " ++ a ++ "\n") ++ ("User: " ++ m ++ "\nAssistant:") ∧
    (pyStrip raw ≠ "" →
      pyLower (pyStrip raw) ≠ "exit" → pyLower (pyStrip raw) ≠ "quit" →
      extract_text choices = some a →
      (loop_step cfg t (Event.line raw (ClientResult.returns choices))).transcript =
        t ++ serialize_exchange (pyStrip raw) a) := by
  constructor
  · unfold build_prompt serialize_exchange
    simp only [← String.append_assoc]
    rw [String.append_assoc
      ((if s ≠ "" then s ++ "\n\n" else "") ++ t ++ "User: " ++ u) "\nAssistant:" " "]
    rfl
  · intro h1 h2 h3 hext
    simp [loop_step, h1, h2, h3, hext]

theorem c9_witness :
    (loop_step sampleConfig "T" (Event.line "Hi" (ClientResult.returns [some " ok "]))).transcript =
      "T" ++ serialize_exchange (pyStrip "Hi") "ok" :=
  (c9_transcript_growth_commutes "s" "T" "u" "ok" "m" "Hi" sampleConfig
    [some " ok "]).2 (by decide) (by decide) (by decide) (by decide)


/-- C4: when the client raises or the response shape is unexpected, the
loop step reports the error on standard error, does not terminate, leaves
the transcript unchanged, and the loop continues with the same transcript;
the transcript is extended only after a successful extraction. -/
theorem c4_failures_leave_transcript (cfg : Config) (t raw : String)
    (client : ClientResult) (rest : List Event)
    (h1 : pyStrip raw ≠ "")
    (h2 : pyLower (pyStrip raw) ≠ "exit") (h3 : pyLower (pyStrip raw) ≠ "quit") :
    (∀ msg, client = ClientResult.raises msg →
      (loop_step cfg t (Event.line raw client)).transcript = t ∧
      (loop_step cfg t (Event.line raw client)).terminated = false ∧
      (loop_step cfg t (Event.line raw client)).stderr = ["API error: " ++ msg ++ "\n"] ∧
      (loop_step cfg t (Event.line raw client)).stdout = [] ∧
      (run_loop cfg t (Event.line raw client :: rest)).exitCode =
        (run_loop cfg t rest).exitCode ∧
      (run_loop cfg t (Event.line raw client :: rest)).transcript =
        (run_loop cfg t rest).transcript) ∧
    (∀ choices, client = ClientResult.returns choices → extract_text choices = none →
      (loop_step cfg t (Event.line raw client)).transcript = t ∧
      (loop_step cfg t (Event.line raw client)).terminated = false ∧
      (loop_step cfg t (Event.line raw client)).stderr = ["Unexpected response format.\n"] ∧
      (loop_step cfg t (Event.line raw client)).stdout = [] ∧
      (run_loop cfg t (Event.line raw client :: rest)).exitCode =
        (run_loop cfg t rest).exitCode ∧
      (run_loop cfg t (Event.line raw client :: rest)).transcript =
        (run_loop cfg t rest).transcript) ∧
    ((loop_step cfg t (Event.line raw client)).transcript ≠ t →
      ∃ choices reply, client = ClientResult.returns choices ∧
        extract_text choices = some reply) := by
  refine ⟨?_, ?_, ?_⟩
  · intro msg hc; subst hc
    refine ⟨?_, ?_, ?_, ?_, ?_, ?_⟩ <;> simp [run_loop, loop_step, h1, h2, h3]
  · intro choices hc hext; subst hc
    refine ⟨?_, ?_, ?_, ?_, ?_, ?_⟩ <;> simp [run_loop, loop_step, h1, h2, h3, hext]
  · intro hchange
    match client with
    | ClientResult.raises msg =>
      exact absurd (by simp [loop_step, h1, h2, h3]) hchange
    | ClientResult.returns choices =>
      match hext : extract_text choices with
      | none => exact absurd (by simp [loop_step, h1, h2, h3, hext]) hchange
      | some reply => exact ⟨choices, reply, rfl, hext⟩

theorem c4_witness :
    (loop_step sampleConfig "T" (Event.line "Hi" (ClientResult.raises "boom"))).transcript = "T" ∧
    (loop_step sampleConfig "T" (Event.line "Hi" (ClientResult.raises "boom"))).terminated = false ∧
    (loop_step sampleConfig "T" (Event.line "Hi" (ClientResult.raises "boom"))).stderr =
      ["API error: " ++ "boom" ++ "\n"] ∧
    (loop_step sampleConfig "T" (Event.line "Hi" (ClientResult.raises "boom"))).stdout = [] ∧
    (run_loop sampleConfig "T" [Event.line "Hi" (ClientResult.raises "boom")]).exitCode =
      (run_loop sampleConfig "T" []).exitCode ∧
    (run_loop sampleConfig "T" [Event.line "Hi" (ClientResult.raises "boom")]).transcript =
      (run_loop sampleConfig "T" []).transcript :=
  (c4_failures_leave_transcript sampleConfig "T" "Hi" (ClientResult.raises "boom") []
    (by decide) (by decide) (by decide)).1 "boom" rfl

/-- C5: in verbose mode the logged request carries the prompt truncated to
its first 1000 characters plus the marker whenever it exceeds 1000
characters (and the full prompt otherwise), while the request actually sent
always carries the untruncated prompt. -/
theorem c5_verbose_truncated_logging (cfg : Config) (t raw : String) (client : ClientResult)
    (hv : cfg.verbose = true)
    (h1 : pyStrip raw ≠ "")
    (h2 : pyLower (pyStrip raw) ≠ "exit") (h3 : pyLower (pyStrip raw) ≠ "quit") :
    (loop_step cfg t (Event.line raw client)).request =
      some (mk_request cfg (build_prompt cfg.system t (pyStrip raw))) ∧
    (loop_step cfg t (Event.line raw client)).loggedRequest =
      some (mk_request cfg (truncate_prompt (build_prompt cfg.system t (pyStrip raw)))) ∧
    (∀ p : String, 1000 < pyLen p →
      truncate_prompt p = pySlice 1000 p ++ "... [truncated]") ∧
    (∀ p : String, pyLen p ≤ 1000 → truncate_prompt p = p) := by
  refine ⟨?_, ?_, ?_, ?_⟩
  · match client with
    | ClientResult.raises msg => simp [loop_step, h1, h2, h3]
    | ClientResult.returns choices =>
      match hext : extract_text choices with
      | none => simp [loop_step, h1, h2, h3, hext]
      | some reply => simp [loop_step, h1, h2, h3, hext]
  · match client with
    | ClientResult.raises msg => simp [loop_step, h1, h2, h3, hv]
    | ClientResult.returns choices =>
      match hext : extract_text choices with
      | none => simp [loop_step, h1, h2, h3, hext, hv]
      | some reply => simp [loop_step, h1, h2, h3, hext, hv]
  · intro p hp
    rw [truncate_prompt, if_neg (by omega)]
  · intro p hp
    rw [truncate_prompt, if_pos hp]


set_option maxRecDepth 100000 in
theorem c5_witness :
    (loop_step sampleVerboseConfig "" (Event.line longMessage (ClientResult.raises "e"))).loggedRequest =
      some (mk_request sampleVerboseConfig
        (truncate_prompt (build_prompt sampleVerboseConfig.system "" (pyStrip longMessage)))) ∧
    truncate_prompt (build_prompt sampleVerboseConfig.system "" (pyStrip longMessage)) =
      pySlice 1000 (build_prompt sampleVerboseConfig.system "" (pyStrip longMessage)) ++
        "... [truncated]" :=
  ⟨(c5_verbose_truncated_logging sampleVerboseConfig "" longMessage (ClientResult.raises "e")
      rfl (by decide) (by decide) (by decide)).2.1,
   (c5_verbose_truncated_logging sampleVerboseConfig "" longMessage (ClientResult.raises "e")
      rfl (by decide) (by decide) (by decide)).2.2.1
      (build_prompt sampleVerboseConfig.system "" (pyStrip longMessage)) (by decide)⟩


/-- C6: a line equal to "exit" or "quit" up to case, and end-of-input or
interrupt, terminate the loop without invoking the client, after which the
process returns exit code 0. -/
theorem c6_exit_terminates (cfg : Config) (t raw : String) (client : ClientResult)
    (rest : List Event) (env : Option String) (file : FileState) (k : String)
    (h : pyLower raw = "exit" ∨ pyLower raw = "quit") :
    (loop_step cfg t (Event.line raw client)).terminated = true ∧
    (loop_step cfg t (Event.line raw client)).request = none ∧
    run_loop cfg t (Event.line raw client :: rest) = ⟨0, t, [], [], []⟩ ∧
    (loop_step cfg t Event.eof).terminated = true ∧
    (loop_step cfg t Event.eof).request = none ∧
    run_loop cfg t (Event.eof :: rest) = ⟨0, t, [], ["\n"], []⟩ ∧
    (resolve_api_key env file = some k →
      (main02 cfg env file (Event.line raw client :: rest)).exitCode = 0 ∧
      (main02 cfg env file (Event.eof :: rest)).exitCode = 0) := by
  have hs : pyStrip raw = raw := pyStrip_exit_quit raw h
  have hne : raw ≠ "" := by
    rcases h with h | h <;> · intro he; rw [he] at h; exact absurd h (by decide)
  have hstep : ∀ tr, loop_step cfg tr (Event.line raw client) = ⟨tr, true, none, none, [], []⟩ := by
    intro tr
    rcases h with h | h <;> simp [loop_step, hs, hne, h]
  refine ⟨by rw [hstep], by rw [hstep], ?_, rfl, rfl, ?_, ?_⟩
  · simp [run_loop, hstep]
  · simp [run_loop, loop_step]
  · intro hk
    refine ⟨?_, ?_⟩
    · simp [main02, hk, run_loop, hstep]
    · simp [main02, hk, run_loop, loop_step]

theorem c6_witness :
    (loop_step sampleConfig "T" (Event.line "EXIT" (ClientResult.raises "e"))).terminated = true ∧
    (loop_step sampleConfig "T" (Event.line "EXIT" (ClientResult.raises "e"))).request = none :=
  ⟨(c6_exit_terminates sampleConfig "T" "EXIT" (ClientResult.raises "e") [] (some "K")
      FileState.absent "K" (Or.inl (by decide))).1,
   (c6_exit_terminates sampleConfig "T" "EXIT" (ClientResult.raises "e") [] (some "K")
      FileState.absent "K" (Or.inl (by decide))).2.1⟩

/-- C7: an empty input line is a no-op iteration: no client call, no
output, unchanged transcript, and the loop goes on exactly as if the line
had not occurred. -/
theorem c7_empty_line_noop (cfg : Config) (t : String) (client : ClientResult)
    (rest : List Event) :
    loop_step cfg t (Event.line "" client) = ⟨t, false, none, none, [], []⟩ ∧
    run_loop cfg t (Event.line "" client :: rest) = run_loop cfg t rest := by
  have hstep : loop_step cfg t (Event.line "" client) = ⟨t, false, none, none, [], []⟩ := by
    simp [loop_step, pyStrip_empty]
  exact ⟨hstep, by simp [run_loop, hstep]⟩

/-- C8: every failure mode of the credential file (unreadable, malformed
JSON, non-object JSON, missing key, non-string value, blank value) makes
the file lookup return nothing, exactly as if the file were absent, and
resolution degrades silently to the same outcome as with an absent file. -/
theorem c8_file_failures_silent (env : Option String) (file : FileState)
    (entries : List (String × JsonVal)) (k : String) :
    get_key_from_json FileState.unreadable = none ∧
    get_key_from_json FileState.malformed = none ∧
    get_key_from_json FileState.nonObject = none ∧
    (lookupEntry entries "OPENAI_API_KEY" = none →
      get_key_from_json (FileState.object entries) = none) ∧
    (lookupEntry entries "OPENAI_API_KEY" = some JsonVal.nonStr →
      get_key_from_json (FileState.object entries) = none) ∧
    (lookupEntry entries "OPENAI_API_KEY" = some (JsonVal.str k) → pyStrip k = "" →
      get_key_from_json (FileState.object entries) = none) ∧
    (get_key_from_json file = none →
      resolve_api_key env file = resolve_api_key env FileState.absent) := by
  refine ⟨rfl, rfl, rfl, ?_, ?_, ?_, ?_⟩
  · intro h; simp [get_key_from_json, h]
  · intro h; simp [get_key_from_json, h]
  · intro h hstrip; simp [get_key_from_json, h, hstrip]
  · intro h
    cases hge : get_env env
    · simp only [resolve_api_key, hge, h]; rfl
    · simp only [resolve_api_key, hge]

theorem c8_witness :
    get_key_from_json (FileState.object [("OPENAI_API_KEY", JsonVal.str "   ")]) = none ∧
    resolve_api_key none (FileState.object [("OPENAI_API_KEY", JsonVal.str "   ")]) =
      resolve_api_key none FileState.absent :=
  ⟨(c8_file_failures_silent none (FileState.object [("OPENAI_API_KEY", JsonVal.str "   ")])
      [("OPENAI_API_KEY", JsonVal.str "   ")] "   ").2.2.2.2.2.1 (by decide) (by decide),
   (c8_file_failures_silent none (FileState.object [("OPENAI_API_KEY", JsonVal.str "   ")])
      [("OPENAI_API_KEY", JsonVal.str "   ")] "   ").2.2.2.2.2.2 (by decide)⟩

/-- C10: every input line is whitespace-stripped before any other
processing: whitespace-only lines behave as empty lines, a line whose
stripped form equals "exit" or "quit" case-insensitively (for instance
"  Exit  ") terminates the loop, prompts and transcripts record the
stripped message, and the assistant reply is stripped before being printed
and recorded. -/
theorem c10_whitespace_stripping (cfg : Config) (t raw : String) (client : ClientResult)
    (choices : List (Option String)) :
    ((∀ c ∈ raw.data, c.isWhitespace) →
      loop_step cfg t (Event.line raw client) = ⟨t, false, none, none, [], []⟩) ∧
    ((pyLower (pyStrip raw) = "exit" ∨ pyLower (pyStrip raw) = "quit") →
      (loop_step cfg t (Event.line raw client)).terminated = true ∧
      (loop_step cfg t (Event.line raw client)).request = none) ∧
    ((loop_step cfg t (Event.line "  Exit  " client)).terminated = true ∧
      (loop_step cfg t (Event.line "  Exit  " client)).request = none) ∧
    (pyStrip raw ≠ "" → pyLower (pyStrip raw) ≠ "exit" → pyLower (pyStrip raw) ≠ "quit" →
      (loop_step cfg t (Event.line raw client)).request =
        some (mk_request cfg (build_prompt cfg.system t (pyStrip raw))) ∧
      (∀ txt others, choices = some txt :: others →
        (loop_step cfg t (Event.line raw (ClientResult.returns choices))).stdout =
          ["Assistant: " ++ pyStrip txt ++ "\n"] ∧
        (loop_step cfg t (Event.line raw (ClientResult.returns choices))).transcript =
          t ++ serialize_exchange (pyStrip raw) (pyStrip txt))) := by
  refine ⟨?_, ?_, ?_, ?_⟩
  · intro hws
    have h0 : pyStrip raw = "" := pyStrip_all_ws raw hws
    simp [loop_step, h0]
  · intro h
    have hne : pyStrip raw ≠ "" := by
      rcases h with h | h <;>
      · intro he; rw [he] at h; exact absurd h (by decide)
    rcases h with h | h <;> constructor <;> simp [loop_step, hne, h]
  · have he : pyStrip "  Exit  " = "Exit" := by decide
    have hl : pyLower "Exit" = "exit" := by decide
    have hne : ("Exit" : String) ≠ "" := by decide
    constructor <;> simp [loop_step, he, hl, hne]
  · intro h1 h2 h3
    constructor
    · match client with
      | ClientResult.raises msg => simp [loop_step, h1, h2, h3]
      | ClientResult.returns cs =>
        match hext : extract_text cs with
        | none => simp [loop_step, h1, h2, h3, hext]
        | some reply => simp [loop_step, h1, h2, h3, hext]
    · intro txt others hc
      subst hc
      constructor <;> simp [loop_step, h1, h2, h3, extract_text]

theorem c10_witness :
    loop_step sampleConfig "T" (Event.line "   " (ClientResult.raises "e")) =
      ⟨"T", false, none, none, [], []⟩ ∧
    (loop_step sampleConfig "T" (Event.line " Hi " (ClientResult.returns [some " ok "]))).stdout =
      ["Assistant: " ++ pyStrip " ok " ++ "\n"] ∧
    (loop_step sampleConfig "T" (Event.line " Hi " (ClientResult.returns [some " ok "]))).transcript =
      "T" ++ serialize_exchange (pyStrip " Hi ") (pyStrip " ok ") :=
  ⟨(c10_whitespace_stripping sampleConfig "T" "   " (ClientResult.raises "e") []).1 (by decide),
   ((c10_whitespace_stripping sampleConfig "T" " Hi " (ClientResult.returns [some " ok "])
      [some " ok "]).2.2.2 (by decide) (by decide) (by decide)).2 " ok " [] rfl |>.1,
   ((c10_whitespace_stripping sampleConfig "T" " Hi " (ClientResult.returns [some " ok "])
      [some " ok "]).2.2.2 (by decide) (by decide) (by decide)).2 " ok " [] rfl |>.2⟩

end Agentes
